import Mathlib

/-!
Verification of the model-routing and response-generation core of the
AI-platform chat application (src/app/services/model_service.py,
src/app/blueprints/chat/routes.py, src/app/models/user.py, src/config.py).

Pure Python functions are translated as Lean functions on `String`/`List`.
Python substring tests (`kw in text`) are modelled by `strContains`,
`str.split()` by `pySplit`, `str.strip()` by `pyStrip`, `str.lower()` by
`pyLower`.

Python generator semantics matter for this code base: a Python `def` whose
body contains a `yield` statement anywhere is a generator function, and
calling it returns a generator object immediately without executing the
body.  The value a call produces is modelled by `PyVal`: either a plain
string or a generator object carrying the list of values its iteration
would yield together with the value of its final `return` statement
(delivered via `StopIteration`), or an escaping exception.
-/

/-- Python list-of-chars prefix test used by `charListContainsSub`. -/
def charListIsPfx : List Char → List Char → Bool
  | [], _ => true
  | _ :: _, [] => false
  | p :: ps, c :: cs => p == c && charListIsPfx ps cs

/-- Substring search on character lists: does `hay` contain `pat` contiguously? -/
def charListContainsSub (pat : List Char) : List Char → Bool
  | [] => pat.isEmpty
  | c :: t => charListIsPfx pat (c :: t) || charListContainsSub pat t

/-- Python's `pat in s` substring containment on strings. -/
def strContains (s pat : String) : Bool :=
  charListContainsSub pat.data s.data

/-- Python's `str.lower()` (character-wise, sufficient for the ASCII
keyword sets of this code base). -/
def pyLower (s : String) : String :=
  String.mk (s.data.map Char.toLower)

/-- Python's `str.strip()`: drop leading and trailing whitespace. -/
def pyStrip (s : String) : String :=
  String.mk (((s.data.dropWhile Char.isWhitespace).reverse.dropWhile Char.isWhitespace).reverse)

/-- Helper for `pySplit`: walk the characters, accumulating the current word. -/
def pySplitAux : List Char → List Char → List String
  | [], acc => if acc.isEmpty then [] else [String.mk acc.reverse]
  | c :: rest, acc =>
      if c.isWhitespace then
        if acc.isEmpty then pySplitAux rest []
        else String.mk acc.reverse :: pySplitAux rest []
      else
        pySplitAux rest (c :: acc)

/-- Python's `str.split()`: split on runs of whitespace, discarding empties. -/
def pySplit (s : String) : List String :=
  pySplitAux s.data []

/-- The word-by-word fallback stream used by the adapters' streaming
generators: `for word in fallback.split(): yield word + " "`. -/
def fallbackWords (fb : String) : List String :=
  (pySplit fb).map (fun w => w ++ " ")

/-! ## Content classifier (model_service.py, `detect_content_type`)

The source function is truncated: its body ends with the pdf check.  The
image / video / file checks, the structural code heuristics and the final
`return 'general'` are dead statements sitting after the `return` inside
`generate_unique_response_id` (model_service.py lines 845-861), so the
function falls off the end — i.e. returns Python `None` — for every prompt
that matches neither a coding keyword nor a pdf keyword.  The embedding
returns `Option String` accordingly. -/

def coding_keywords : List String :=
  ["code", "function", "class", "programming", "debug", "error",
   "python", "javascript", "java", "c++", "rust", "go", "php",
   "html", "css", "sql", "algorithm", "api", "backend", "frontend",
   "bug", "syntax", "compile", "execute", "script", "package",
   "import", "export", "variable", "loop", "conditional", "refactor",
   "optimize code", "write code", "fix code", "review code",
   "implementation", "coding", "developer", "program"]

def file_keywords : List String :=
  ["file", "document", "upload", "large file", "csv", "json", "xml", "yaml"]

def pdf_keywords : List String :=
  ["pdf", "document analysis", "extract text", "read pdf"]

def image_keywords : List String :=
  ["image", "photo", "picture", "jpeg", "png", "analyze image", "vision"]

def video_keywords : List String :=
  ["video", "mp4", "avi", "analyze video", "video processing"]

/-- Embedding of `detect_content_type` as the source actually executes it: coding check,
then pdf check, then an implicit `return None` (the remaining checks are
unreachable dead code, see module comment above). -/
def detect_content_type (prompt : String) : Option String :=
  let prompt_lower := pyLower prompt
  if coding_keywords.any (fun k => strContains prompt_lower k) then some "code"
  else if pdf_keywords.any (fun k => strContains prompt_lower k) then some "pdf"
  else none

/-! ## Model registry (model_service.py, `MODELS`) -/

/-- The four adapter instances constructed at module load
(`mistral_model`, `codellama_model`, `llama3_model`, `hermes_model`).
Physical identity of the Python objects is modelled by this enumeration:
two registry entries holding the same constructor are the same instance. -/
inductive AdapterId where
  | mistralInst
  | codellamaInst
  | llama3Inst
  | hermesInst
deriving DecidableEq

/-- The `MODELS` dict: primary names first, then the alias entries that
reuse the same instances. -/
def MODELS : List (String × AdapterId) :=
  [("mistral", .mistralInst),
   ("codellama", .codellamaInst),
   ("llama3", .llama3Inst),
   ("hermes", .hermesInst),
   ("llama", .llama3Inst),
   ("gpt4all", .mistralInst),
   ("deepseek", .codellamaInst),
   ("vicuna", .hermesInst)]

/-- Dict lookup `MODELS[name]`. -/
def modelsLookup (name : String) : Option AdapterId :=
  (MODELS.find? (fun p => p.1 == name)).map Prod.snd

/-- Python `name in MODELS`. -/
def modelsContains (name : String) : Bool :=
  (modelsLookup name).isSome

/-- Text of `MistralAdapter._mock_response` (the prompt argument is ignored). -/
def mistralFallback : String :=
  "I can help with general conversation, Q&A, and various tasks. (Mistral model not loaded - using fallback)"

/-- Text of `CodeLlamaAdapter._mock_response`. -/
def codellamaFallback : String :=
  "I can help with code generation, debugging, and explanation. (CodeLlama model not loaded - using fallback)\n\n```python\n# Example code\ndef example():\n    pass\n```"

/-- Text of `Llama3Adapter._mock_response`. -/
def llama3Fallback : String :=
  "I can help with document processing, analysis, and general tasks. (Llama-3 model not loaded - using fallback)"

/-- Text of `HermesAdapter._mock_response`. -/
def hermesFallback : String :=
  "I can help with creative writing, brainstorming, and engaging conversations. (OpenHermes model not loaded - using fallback)"

/-- Fallback text per adapter instance. -/
def fallbackOf : AdapterId → String
  | .mistralInst => mistralFallback
  | .codellamaInst => codellamaFallback
  | .llama3Inst => llama3Fallback
  | .hermesInst => hermesFallback

/-! ## Model selection (model_service.py, `select_model_for_content`)

`current_app.config.get('DEFAULT_MODEL', 'mistral')` is modelled by the
`defaultModel` parameter; src/config.py sets
`DEFAULT_MODEL = os.environ.get('DEFAULT_MODEL', 'gpt4all')`, so the
configuration value shipped with the repository is `"gpt4all"`.  The
`except RuntimeError` branch (no app context) returns `"mistral"` and is
covered by the `else` arm of the registry check because `"mistral"` is
what the in-registry check also falls back to. -/
def select_model_for_content (prompt : String) (requested_model : Option String)
    (defaultModel : String) : String :=
  match requested_model with
  | some r =>
      if modelsContains r then r
      else select_model_for_content_auto prompt defaultModel
  | none => select_model_for_content_auto prompt defaultModel
where
  select_model_for_content_auto (prompt defaultModel : String) : String :=
    let content_type := detect_content_type prompt
    if content_type == some "code" then "codellama"
    else if content_type == some "pdf" || content_type == some "file" then "llama3"
    else if content_type == some "image" || content_type == some "video" then "hermes"
    else if modelsContains defaultModel then defaultModel
    else "mistral"

/-- The model-name resolution performed inside `get_model_response`
(model_service.py lines 1371-1381): `'auto'` goes through
`select_model_for_content`; a name missing from `MODELS` falls back to
the hard-coded `'gpt4all'`. -/
def resolveModelName (prompt requested defaultModel : String) : String :=
  let m1 := if requested == "auto"
    then select_model_for_content prompt none defaultModel
    else requested
  if modelsContains m1 then m1 else "gpt4all"

/-! ## Streaming generators

`MistralAdapter.generate.streaming_generator` (model_service.py lines
339-401) and the shared shape of
`CodeLlamaAdapter/Llama3Adapter/HermesAdapter.generate.streaming_generator`
(lines 476-506, 578-608, 680-710; identical up to the fallback text).

A backend chunk may be a plain string, a dict
`{'choices': [{'text': ...}]}`, or anything else (stringified); in all
three cases the generators extract one token string. -/

inductive Chunk where
  | str (s : String)
  | dict (text : String)
  | other (repr : String)
deriving DecidableEq

/-- Token extraction the generators perform on each chunk. -/
def tokenOf : Chunk → String
  | .str s => s
  | .dict t => t
  | .other r => r

/-- Loop of the Mistral streaming generator: `empty_count` counts
consecutive empty tokens (reset by any non-empty token); after
`max_empty = 10` consecutive empties the fallback words are yielded and
the generator returns; a non-empty token is yielded and sets
`yielded_any`; an empty token is not yielded; when the backend sequence
ends without any real token having been yielded, the fallback words are
yielded. -/
def mistralStreamGo : List Chunk → Nat → Bool → List String
  | [], _, yielded_any =>
      if yielded_any then [] else fallbackWords mistralFallback
  | c :: rest, empty_count, yielded_any =>
      let token := tokenOf c
      if token ≠ "" then token :: mistralStreamGo rest 0 true
      else if empty_count + 1 ≥ 10 then fallbackWords mistralFallback
      else mistralStreamGo rest (empty_count + 1) yielded_any

/-- The full fragment sequence the Mistral streaming generator yields:
a literal `"Testing... "` test token first, then the loop. -/
def mistralStreamingGenerator (chunks : List Chunk) : List String :=
  "Testing... " :: mistralStreamGo chunks 0 false

/-- Loop shared by the CodeLlama/Llama3/Hermes streaming generators
(no test token, no consecutive-empty ceiling): non-empty tokens are
yielded, empty ones silently skipped; if the backend ends with no token
yielded the fallback words are yielded. -/
def plainStreamGo (fb : String) : List Chunk → Bool → List String
  | [], yielded_any => if yielded_any then [] else fallbackWords fb
  | c :: rest, yielded_any =>
      let token := tokenOf c
      if token ≠ "" then token :: plainStreamGo fb rest true
      else plainStreamGo fb rest yielded_any

/-- Fragments of `CodeLlamaAdapter.generate.streaming_generator`. -/
def codellamaStreamingGenerator (chunks : List Chunk) : List String :=
  plainStreamGo codellamaFallback chunks false

/-- Fragments of `Llama3Adapter.generate.streaming_generator`. -/
def llama3StreamingGenerator (chunks : List Chunk) : List String :=
  plainStreamGo llama3Fallback chunks false

/-- Fragments of `HermesAdapter.generate.streaming_generator`. -/
def hermesStreamingGenerator (chunks : List Chunk) : List String :=
  plainStreamGo hermesFallback chunks false

/-! ## Python call values and the adapters' `generate`

Each of `MistralAdapter.generate`, `CodeLlamaAdapter.generate`,
`Llama3Adapter.generate`, `HermesAdapter.generate` contains `yield`
statements directly in its body (the fallback branches, e.g.
model_service.py lines 409, 415 for Mistral and 512, 517 for CodeLlama),
so each is a Python *generator function*: a call returns a generator
object at once and runs none of the body.  `get_model_response` likewise
contains a `yield` (line 1415) and is a generator function.

`PyVal` models the value a call produces.  `vGen yields ret` is a
generator object: iterating it produces `yields` and then terminates with
`StopIteration` whose value is `ret` (`vNone` when the body just falls off
the end, `vRaises` when iterating raises an exception to the consumer). -/

inductive PyVal where
  | vStr (s : String)
  | vGen (yields : List String) (ret : PyVal)
  | vNone
  | vRaises
deriving DecidableEq

/-- Is the call result a plain Python `str`? -/
def PyVal.isStr : PyVal → Bool
  | .vStr _ => true
  | _ => false

/-- Behaviour of the wrapped llama-cpp backend handle on one call:
it raises, or returns a completion (`blockingText` is
`response['choices'][0]['text']` in blocking mode, `chunks` the iterator
in streaming mode). -/
inductive BackendResult where
  | raises
  | ok (blockingText : String) (chunks : List Chunk)
deriving DecidableEq

/-- Call value of `MistralAdapter.generate(prompt, user, stream)` — a generator-function
call.  Branches follow the source: not loaded → fallback (yielded in
stream mode, otherwise the `return` value); backend raises → same
fallback shape; backend ok → in stream mode `return streaming_generator()`
(an inner generator object as the `StopIteration` value), in blocking mode
`return response['choices'][0]['text'].strip()`. -/
def MistralAdapter.generate (loaded : Bool) (backend : BackendResult)
    (prompt : String) (stream : Bool) : PyVal :=
  if loaded then
    match backend with
    | .raises =>
        if stream then .vGen [mistralFallback] .vNone
        else .vGen [] (.vStr mistralFallback)
    | .ok text chunks =>
        if stream then .vGen [] (.vGen (mistralStreamingGenerator chunks) .vNone)
        else .vGen [] (.vStr (pyStrip text))
  else
    if stream then .vGen [mistralFallback] .vNone
    else .vGen [] (.vStr mistralFallback)

/-- Call value of `CodeLlamaAdapter.generate(prompt, user, stream)` — same structure as
the Mistral adapter with its own fallback and streaming generator. -/
def CodeLlamaAdapter.generate (loaded : Bool) (backend : BackendResult)
    (prompt : String) (stream : Bool) : PyVal :=
  if loaded then
    match backend with
    | .raises =>
        if stream then .vGen [codellamaFallback] .vNone
        else .vGen [] (.vStr codellamaFallback)
    | .ok text chunks =>
        if stream then .vGen [] (.vGen (codellamaStreamingGenerator chunks) .vNone)
        else .vGen [] (.vStr (pyStrip text))
  else
    if stream then .vGen [codellamaFallback] .vNone
    else .vGen [] (.vStr codellamaFallback)

/-- Call value of `Llama3Adapter.generate(prompt, user, stream)`. -/
def Llama3Adapter.generate (loaded : Bool) (backend : BackendResult)
    (prompt : String) (stream : Bool) : PyVal :=
  if loaded then
    match backend with
    | .raises =>
        if stream then .vGen [llama3Fallback] .vNone
        else .vGen [] (.vStr llama3Fallback)
    | .ok text chunks =>
        if stream then .vGen [] (.vGen (llama3StreamingGenerator chunks) .vNone)
        else .vGen [] (.vStr (pyStrip text))
  else
    if stream then .vGen [llama3Fallback] .vNone
    else .vGen [] (.vStr llama3Fallback)

/-- Call value of `HermesAdapter.generate(prompt, user, stream)`. -/
def HermesAdapter.generate (loaded : Bool) (backend : BackendResult)
    (prompt : String) (stream : Bool) : PyVal :=
  if loaded then
    match backend with
    | .raises =>
        if stream then .vGen [hermesFallback] .vNone
        else .vGen [] (.vStr hermesFallback)
    | .ok text chunks =>
        if stream then .vGen [] (.vGen (hermesStreamingGenerator chunks) .vNone)
        else .vGen [] (.vStr (pyStrip text))
  else
    if stream then .vGen [hermesFallback] .vNone
    else .vGen [] (.vStr hermesFallback)

/-- Dispatch `MODELS[name].generate(...)` to the instance's adapter class. -/
def adapterGenerate (a : AdapterId) (loaded : Bool) (backend : BackendResult)
    (prompt : String) (stream : Bool) : PyVal :=
  match a with
  | .mistralInst => MistralAdapter.generate loaded backend prompt stream
  | .codellamaInst => CodeLlamaAdapter.generate loaded backend prompt stream
  | .llama3Inst => Llama3Adapter.generate loaded backend prompt stream
  | .hermesInst => HermesAdapter.generate loaded backend prompt stream

/-! ## Context assembly inside `get_model_response`
(model_service.py lines 1331-1366). -/

/-- One history entry as passed by the routes:
`{'role': ..., 'content': ...}`. -/
structure HMsg where
  role : String
  content : String
deriving DecidableEq

/-- The `mock_patterns` list used to skip degraded turns. -/
def mock_patterns : List String :=
  ["[Response generated by",
   "mock implementation",
   "(Model not loaded",
   "using fallback)",
   "Previous conversation:",
   "Interesting question! Regarding"]

/-- Python `any(pattern in content for pattern in mock_patterns)`. -/
def isMockContent (content : String) : Bool :=
  mock_patterns.any (fun p => strContains content p)

/-- One `"User: ..."` / `"Assistant: ..."` context line; any role other
than `'user'` is rendered as the assistant. -/
def historyLine (m : HMsg) : String :=
  if m.role == "user" then "User: " ++ m.content else "Assistant: " ++ m.content

/-- The `conversation_context` list: every history message with non-blank
content that does not match a mock pattern, in order — note: ALL turns,
with no turn-count or length truncation whatsoever. -/
def contextLines (history : List HMsg) : List String :=
  history.filterMap (fun m =>
    if pyStrip m.content ≠ "" && !isMockContent m.content
    then some (historyLine m) else none)

/-- The `full_prompt` string as built by `get_model_response`. -/
def buildFullPrompt (history : List HMsg) (prompt : String) : String :=
  let ctx := contextLines history
  if ctx.isEmpty then "User: " ++ prompt ++ "\nAssistant:"
  else String.intercalate "\n" ctx ++ "\nUser: " ++ prompt ++ "\nAssistant:"

/-- Call value of `get_model_response(prompt, model_name, user, history, stream)`: the call
value.  The function is a generator function (it has a `yield` in its
`except` branch), so the call itself returns a generator object whose
iteration runs the body: build `full_prompt`, resolve the model name,
then — `stream=True`: `return model.generate(full_prompt, user,
stream=True)`, i.e. the adapter call's generator object becomes the
`StopIteration` value; `stream=False`: `response = model.generate(...)`
is itself a generator object (adapters are generator functions), so the
following `len(response)` raises `TypeError`, the `except` branch runs
`raise Exception(f"AI model error: ...")`, and iteration raises to the
consumer.  The unreachable `vStr` arm keeps the translation honest: had
the adapter returned a plain string, its length would have been taken and
the string returned. -/
def get_model_response_call (prompt modelName defaultModel : String)
    (loadState : AdapterId → Bool) (backends : AdapterId → BackendResult)
    (history : List HMsg) (stream : Bool) : PyVal :=
  let full_prompt := buildFullPrompt history prompt
  let resolved := resolveModelName prompt modelName defaultModel
  match modelsLookup resolved with
  | none =>
      -- KeyError from MODELS[resolved], caught by the except branch
      if stream then .vGen ["AI model error"] .vNone else .vGen [] .vRaises
  | some a =>
      let callRes := adapterGenerate a (loadState a) (backends a) full_prompt stream
      if stream then .vGen [] callRes
      else
        match callRes with
        | .vStr s => .vGen [] (.vStr s)
        | _ => .vGen [] .vRaises

/-! ## Session context retrieval (user.py, `ConversationSession.get_context_messages`)
and the chat route `send_message` (routes.py lines 87-172). -/

/-- Embedding of `ConversationSession.get_context_messages(self, limit=10)`: the last
`limit` messages of the session in chronological order (`none` models
SQLAlchemy `limit(None)`, i.e. no limit). -/
def ConversationSession.get_context_messages (msgs : List HMsg)
    (limit : Option Nat) : List HMsg :=
  match limit with
  | some n => (msgs.reverse.take n).reverse
  | none => msgs

/-- The keyword parameters `ConversationSession.get_context_messages`
accepts, read off its `def` line (user.py line 93): only `limit`. -/
def get_context_messages_kwparams : List String := ["limit"]

/-- The keyword arguments the chat routes pass at the call sites
`conv_session.get_context_messages(limit=None, max_tokens=1500)`
(routes.py lines 132 and 212). -/
def routes_context_call_kwargs : List String := ["limit", "max_tokens"]

/-- Python accepts a call only when every keyword argument names a
parameter of the callee; otherwise the call raises `TypeError`. -/
def contextCallAccepted : Bool :=
  routes_context_call_kwargs.all (fun k => get_context_messages_kwparams.contains k)

/-- The `premium_models` list in `send_message` / `stream_message`. -/
def premium_models : List String :=
  ["code", "deepseek", "document", "llama", "image"]

/-- The `free_features` list in `User.can_use_feature` (user.py line 32). -/
def free_features : List String :=
  ["chat", "general", "qa", "basic"]

/-- Embedding of `User.can_use_feature(self, feature)`: premium or admin users can use
everything; a free user only the free features.  `grantsPremium` models
`self.is_premium() or self.is_admin()`. -/
def User.can_use_feature (grantsPremium : Bool) (feature : String) : Bool :=
  grantsPremium || free_features.contains feature

/-- The exception class of the unhandled error a `send_message` request
dies with (surfaced by Flask as HTTP 500). -/
inductive PyErr where
  | typeErrorUnexpectedKwarg
  | persistGeneratorObjectError
deriving DecidableEq

/-- Outcome of one `POST /chat/send` request. -/
inductive SendOutcome where
  | emptyMessage
  | upgradeRequired
  | internalError (e : PyErr)
deriving DecidableEq

/-- What a `send_message` request did: its outcome, whether the user turn
was committed, the persisted assistant turn (content, `model` column) if
any, and whether any adapter's generation ran. -/
structure SendResult where
  outcome : SendOutcome
  persistedUserMsg : Bool
  persistedAssistant : Option (String × String)
  adapterInvoked : Bool
deriving DecidableEq

/-- Embedding of `send_message` (routes.py lines 87-172), for a logged-in user.
`check_rate_limit` returns `(True, None)` for every user
(rate_limit.py lines 10-38), so the 429 branch never fires and is not a
parameter.  Steps: strip the message and reject blanks with 400; refuse
`premium_models` entries the user's tier does not grant with the 403
`upgrade_required` signal; otherwise commit the user turn and call
`conv_session.get_context_messages(limit=None, max_tokens=1500)` — which
raises `TypeError` because the method only accepts `limit`
(`contextCallAccepted = false`), aborting the request with HTTP 500
before `get_model_response` is even called.  The dead arm records what
would happen if the call were accepted: `ai_response =
get_model_response(...)` is a generator object (generator function), and
persisting/serializing it raises inside the `try`, again yielding a 500
with no assistant turn. -/
def send_message (message model : String) (grantsPremium : Bool) : SendResult :=
  let user_message := pyStrip message
  if user_message == "" then
    ⟨.emptyMessage, false, none, false⟩
  else if premium_models.contains model && !(User.can_use_feature grantsPremium model) then
    ⟨.upgradeRequired, false, none, false⟩
  else if !contextCallAccepted then
    ⟨.internalError .typeErrorUnexpectedKwarg, true, none, false⟩
  else
    ⟨.internalError .persistGeneratorObjectError, true, none, false⟩

/-! # Claims -/

/-- Load status of the registry entry `name` under an assignment `σ` of
load states to the four adapter instances. -/
def statusUnder (sigma : AdapterId → Bool) (name : String) : Option Bool :=
  (modelsLookup name).map sigma

/-- Fallback text of the registry entry `name`. -/
def fallbackUnder (name : String) : Option String :=
  (modelsLookup name).map fallbackOf

/-- C9: resolving each alias (`llama`, `gpt4all`, `deepseek`, `vicuna`)
and its corresponding primary name (`llama3`, `mistral`, `codellama`,
`hermes`) yields the very same adapter instance, hence identical load
status under every load-state assignment and identical fallback text. -/
theorem c9_alias_same_instance :
    modelsLookup "llama" = modelsLookup "llama3" ∧
    modelsLookup "gpt4all" = modelsLookup "mistral" ∧
    modelsLookup "deepseek" = modelsLookup "codellama" ∧
    modelsLookup "vicuna" = modelsLookup "hermes" ∧
    (modelsLookup "llama").isSome = true ∧
    (modelsLookup "gpt4all").isSome = true ∧
    (modelsLookup "deepseek").isSome = true ∧
    (modelsLookup "vicuna").isSome = true ∧
    (∀ sigma : AdapterId → Bool,
      statusUnder sigma "llama" = statusUnder sigma "llama3" ∧
      statusUnder sigma "gpt4all" = statusUnder sigma "mistral" ∧
      statusUnder sigma "deepseek" = statusUnder sigma "codellama" ∧
      statusUnder sigma "vicuna" = statusUnder sigma "hermes") ∧
    fallbackUnder "llama" = fallbackUnder "llama3" ∧
    fallbackUnder "gpt4all" = fallbackUnder "mistral" ∧
    fallbackUnder "deepseek" = fallbackUnder "codellama" ∧
    fallbackUnder "vicuna" = fallbackUnder "hermes" := by
  refine ⟨by decide, by decide, by decide, by decide, by decide, by decide, by decide, by decide,
    ?_, by decide, by decide, by decide, by decide⟩
  intro sigma
  exact ⟨rfl, rfl, rfl, rfl⟩

/-- C3 (code bug): `detect_content_type` is not total over the six tags.
The coding and pdf checks work, but a message containing only
image-keywords yields Python `None` (not `'image'`) and a message
matching no keyword set also yields `None` (not `'general'`): the
image/video/file checks, the structural heuristics and the final
`return 'general'` are unreachable dead code located after the `return`
of `generate_unique_response_id`.  This contradicts the function's own
docstring and the tests `test_detect_image_content`,
`test_detect_video_content` and `test_detect_general_content`. -/
theorem c3_classifier_truncated :
    detect_content_type "Write a Python function to reverse a string" = some "code" ∧
    detect_content_type "Analyze this PDF document" = some "pdf" ∧
    detect_content_type "Analyze this image" = none ∧
    detect_content_type "photo" = none ∧
    detect_content_type "Analyze this video" = none ∧
    detect_content_type "What is the weather today?" = none ∧
    detect_content_type "Tell me a joke" = none := by
  refine ⟨by decide, by decide, by decide, by decide, by decide, by decide, by decide⟩

/-- C4 counterexample: with the configuration value `DEFAULT_MODEL =
"llama3"`, resolving the unknown requested name `"nonexistent-model"`
yields the hard-coded `"gpt4all"` — not the configured default — and the
two names denote different adapter instances. -/
theorem c4_counterexample :
    resolveModelName "hello" "nonexistent-model" "llama3" = "gpt4all" ∧
    ("gpt4all" : String) ≠ "llama3" ∧
    modelsLookup "gpt4all" = some AdapterId.mistralInst ∧
    modelsLookup "llama3" = some AdapterId.llama3Inst ∧
    modelsLookup "gpt4all" ≠ modelsLookup "llama3" := by
  refine ⟨by decide, by decide, by decide, by decide, by decide⟩

/-- C4 amended: for every requested name that is neither `auto` nor a
registry key, and for every value of the `DEFAULT_MODEL` configuration,
resolution inside `get_model_response` returns the fixed name
`"gpt4all"` (which the registry routes to the Mistral adapter instance)
and — being a total function — never raises. -/
theorem c4_unknown_name_resolves_to_gpt4all
    (prompt requested defaultModel : String)
    (hauto : requested ≠ "auto")
    (hunknown : modelsContains requested = false) :
    resolveModelName prompt requested defaultModel = "gpt4all" ∧
    modelsLookup (resolveModelName prompt requested defaultModel) =
      some AdapterId.mistralInst := by
  have hbeq : (requested == "auto") = false := by
    simp [hauto]
  have h1 : resolveModelName prompt requested defaultModel = "gpt4all" := by
    unfold resolveModelName
    simp [hbeq, hunknown]
  refine ⟨h1, by rw [h1]; decide⟩

/-- C4 witness: instantiation of `c4_unknown_name_resolves_to_gpt4all`
at the unknown name `"nonexistent-model"` with `DEFAULT_MODEL = "llama3"`. -/
theorem c4_unknown_name_witness :
    ("nonexistent-model" : String) ≠ "auto" ∧
    modelsContains "nonexistent-model" = false ∧
    resolveModelName "hi" "nonexistent-model" "llama3" = "gpt4all" :=
  ⟨by decide, by decide,
    (c4_unknown_name_resolves_to_gpt4all "hi" "nonexistent-model" "llama3"
      (by decide) (by decide)).1⟩

/-- C1 (code bug): because every 2024-generation adapter's `generate`
contains `yield` statements in its fallback branches, it is a Python
generator function, and a blocking call (`stream=False`) returns a
generator object immediately — never a completed string.  At the failing
input of the repository's own test `test_get_model_response`
(`get_model_response("Hello, AI!", "gpt4all")`, models unloaded), the
caller receives a generator object whose iteration yields nothing: the
fallback text only sits in the unused `StopIteration` value, and inside
`get_model_response` the subsequent `len(response)` raises `TypeError`,
turned into a raised `Exception` by its `except` branch. -/
theorem c1_blocking_generate_returns_generator_object :
    (MistralAdapter.generate false BackendResult.raises "Hello, AI!" false).isStr = false ∧
    MistralAdapter.generate false BackendResult.raises "Hello, AI!" false
      = PyVal.vGen [] (PyVal.vStr mistralFallback) ∧
    (CodeLlamaAdapter.generate false BackendResult.raises "Hello, AI!" false).isStr = false ∧
    CodeLlamaAdapter.generate false BackendResult.raises "Hello, AI!" false
      = PyVal.vGen [] (PyVal.vStr codellamaFallback) ∧
    (get_model_response_call "Hello, AI!" "gpt4all" "gpt4all"
        (fun _ => false) (fun _ => BackendResult.raises) [] false).isStr = false ∧
    get_model_response_call "Hello, AI!" "gpt4all" "gpt4all"
        (fun _ => false) (fun _ => BackendResult.raises) [] false
      = PyVal.vGen [] PyVal.vRaises := by
  refine ⟨by decide, by decide, by decide, by decide, by decide, by decide⟩

/-- The mixed empty/non-empty backend fragment sequence of the
repository's own test `test_streaming_with_empty_chunks`:
`['', '', 'Hello', ' ', 'World', '']` in llama-cpp dict format. -/
def mixedTestChunks : List Chunk :=
  [Chunk.dict "", Chunk.dict "", Chunk.dict "Hello", Chunk.dict " ",
   Chunk.dict "World", Chunk.dict ""]

/-- C7 (code bug): the adapters silently drop empty backend fragments
(`if token: yield token`), so the consumer can observe fewer fragments
than the backend produced.  On the six-chunk sequence of
`test_streaming_with_empty_chunks` the Mistral streaming generator yields
only four fragments (test token plus the three non-empty ones); on
`['Token missing', '']` the CodeLlama generator yields one fragment for
two backend chunks.  The repository's tests
`test_streaming_with_empty_chunks` and
`test_streaming_token_count_increments` assert the opposite (empty
fragments forwarded, count ≥ backend count). -/
theorem c7_empty_fragments_dropped :
    mixedTestChunks.length = 6 ∧
    mistralStreamingGenerator mixedTestChunks
      = ["Testing... ", "Hello", " ", "World"] ∧
    (mistralStreamingGenerator mixedTestChunks).length = 4 ∧
    (mistralStreamingGenerator mixedTestChunks).length < mixedTestChunks.length ∧
    codellamaStreamingGenerator [Chunk.dict "Token missing", Chunk.dict ""]
      = ["Token missing"] ∧
    (codellamaStreamingGenerator [Chunk.dict "Token missing", Chunk.dict ""]).length
      < ([Chunk.dict "Token missing", Chunk.dict ""] : List Chunk).length ∧
    llama3StreamingGenerator [Chunk.dict "", Chunk.dict "Token", Chunk.dict ""]
      = ["Token"] := by
  refine ⟨by decide, by decide, by decide, by decide, by decide, by decide, by decide⟩

/-- On an all-empty backend sequence the Mistral streaming loop always
ends in the fallback words, whatever the current consecutive-empty count:
either the `max_empty = 10` ceiling fires mid-loop or the backend ends
with `yielded_any` still false. -/
theorem mistralStreamGo_all_empty (chunks : List Chunk) (ec : Nat)
    (h : chunks.all (fun c => tokenOf c == "") = true) :
    mistralStreamGo chunks ec false = fallbackWords mistralFallback := by
  induction chunks generalizing ec with
  | nil => simp [mistralStreamGo]
  | cons c rest ih =>
      have hsplit := h
      rw [List.all_cons, Bool.and_eq_true] at hsplit
      have hc : tokenOf c = "" := by simpa using hsplit.1
      have hrest : rest.all (fun c => tokenOf c == "") = true := hsplit.2
      unfold mistralStreamGo
      simp only [hc, ne_eq, not_true_eq_false, if_false]
      by_cases hec : ec + 1 ≥ 10
      · simp [hec]
      · simp [hec, ih (ec + 1) hrest]

/-- Same for the CodeLlama/Llama3/Hermes streaming loop: with no
non-empty token the loop yields exactly the fallback words. -/
theorem plainStreamGo_all_empty (fb : String) (chunks : List Chunk)
    (h : chunks.all (fun c => tokenOf c == "") = true) :
    plainStreamGo fb chunks false = fallbackWords fb := by
  induction chunks with
  | nil => simp [plainStreamGo]
  | cons c rest ih =>
      have hsplit := h
      rw [List.all_cons, Bool.and_eq_true] at hsplit
      have hc : tokenOf c = "" := by simpa using hsplit.1
      have hrest : rest.all (fun c => tokenOf c == "") = true := hsplit.2
      unfold plainStreamGo
      simp [hc, ih hrest]

/-- C2 counterexample: feed the CodeLlama streaming generator a backend
sequence of one empty fragment.  The sequence terminates and is
non-empty, but the concatenation of its fragments does NOT contain the
adapter's fallback text `codellamaFallback`: the generator re-emits the
fallback word by word joined by single spaces, losing the fallback's
`"\n\n```python..."` whitespace, so the exact fallback string is not a
substring of what the consumer receives. -/
theorem c2_counterexample :
    tokenOf (Chunk.dict "") = "" ∧
    codellamaStreamingGenerator [Chunk.dict ""] ≠ [] ∧
    strContains (String.join (codellamaStreamingGenerator [Chunk.dict ""]))
      codellamaFallback = false := by
  refine ⟨by decide, by decide, by decide⟩

/-- C2 amended: for every finite backend sequence of only empty
fragments, each adapter's streaming sequence terminates (it is a computed
finite list), yields at least one fragment, and its concatenation
contains every whitespace-separated word of the adapter's non-empty
fallback text (the fallback with its whitespace collapsed to single
spaces); for the Mistral adapter — whose fallback is a single line — the
concatenation contains the full fallback text verbatim. -/
theorem c2_all_empty_stream_falls_back (chunks : List Chunk)
    (h : chunks.all (fun c => tokenOf c == "") = true) :
    mistralStreamingGenerator chunks
      = "Testing... " :: fallbackWords mistralFallback ∧
    codellamaStreamingGenerator chunks = fallbackWords codellamaFallback ∧
    mistralStreamingGenerator chunks ≠ [] ∧
    codellamaStreamingGenerator chunks ≠ [] ∧
    strContains (String.join (mistralStreamingGenerator chunks))
      mistralFallback = true ∧
    ((pySplit codellamaFallback).all
      (fun w => strContains (String.join (codellamaStreamingGenerator chunks)) w))
      = true := by
  have hm : mistralStreamingGenerator chunks
      = "Testing... " :: fallbackWords mistralFallback := by
    unfold mistralStreamingGenerator
    rw [mistralStreamGo_all_empty chunks 0 h]
  have hcl : codellamaStreamingGenerator chunks = fallbackWords codellamaFallback := by
    unfold codellamaStreamingGenerator
    exact plainStreamGo_all_empty codellamaFallback chunks h
  refine ⟨hm, hcl, ?_, ?_, ?_, ?_⟩
  · rw [hm]; decide
  · rw [hcl]; decide
  · rw [hm]; decide
  · rw [hcl]; decide

/-- C2 witness: the amended theorem applied to the concrete all-empty
backend sequence `['']`. -/
theorem c2_all_empty_stream_witness :
    ([Chunk.dict ""].all (fun c => tokenOf c == "") = true) ∧
    codellamaStreamingGenerator [Chunk.dict ""] = fallbackWords codellamaFallback ∧
    strContains (String.join (mistralStreamingGenerator [Chunk.dict ""]))
      mistralFallback = true :=
  ⟨by decide,
   (c2_all_empty_stream_falls_back [Chunk.dict ""] (by decide)).2.1,
   (c2_all_empty_stream_falls_back [Chunk.dict ""] (by decide)).2.2.2.2.1⟩

/-- With the shipped configuration (`DEFAULT_MODEL = "gpt4all"`),
automatic selection can only produce `codellama`, `llama3`, `hermes` or
`gpt4all` (the image/video arm is unreachable because the truncated
classifier never returns those tags, but `hermes` is kept as a case for
robustness of the statement). -/
theorem selectAuto_cases (msg : String) :
    select_model_for_content msg none "gpt4all" = "codellama" ∨
    select_model_for_content msg none "gpt4all" = "llama3" ∨
    select_model_for_content msg none "gpt4all" = "hermes" ∨
    select_model_for_content msg none "gpt4all" = "gpt4all" := by
  simp only [select_model_for_content,
    select_model_for_content.select_model_for_content_auto]
  repeat' split
  all_goals try simp_all
  all_goals exact absurd ‹modelsContains "gpt4all" = false› (by decide)

/-- A request with `model='auto'` never resolves (under the shipped
configuration) to a name in `premium_models`. -/
theorem resolveAuto_not_premium (msg : String) :
    premium_models.contains (resolveModelName msg "auto" "gpt4all") = false := by
  rcases selectAuto_cases msg with h | h | h | h <;>
    · unfold resolveModelName
      simp only [beq_self_eq_true, if_true, h]
      decide

/-- C5: under the shipped configuration (`DEFAULT_MODEL = "gpt4all"`),
every well-formed send request (non-blank message) whose resolved model —
after `'auto'` resolution and unknown-name fallback — is premium-gated,
issued by a user whose tier grants no premium (`grantsPremium = false`),
is refused with the distinguished `upgrade_required` signal: no adapter
is invoked, no reply is generated, and neither a user nor an assistant
message is persisted to the session. -/
theorem c5_premium_gate_refuses_before_adapter (message model : String)
    (hmsg : pyStrip message ≠ "")
    (hres : premium_models.contains (resolveModelName message model "gpt4all") = true) :
    send_message message model false
      = ⟨SendOutcome.upgradeRequired, false, none, false⟩ := by
  have hms : (pyStrip message == "") = false := by simp [hmsg]
  by_cases hauto : model = "auto"
  · rw [hauto] at hres
    rw [resolveAuto_not_premium message] at hres
    exact absurd hres (by decide)
  · have hbeq : (model == "auto") = false := by simp [hauto]
    by_cases hc : modelsContains model = true
    · have hres' : premium_models.contains model = true := by
        unfold resolveModelName at hres
        simpa [hbeq, hc] using hres
      have hmem : model ∈ premium_models := by
        simpa using hres'
      fin_cases hmem <;> simp [send_message, hms] <;> decide
    · have hres' : premium_models.contains "gpt4all" = true := by
        unfold resolveModelName at hres
        simp only [hbeq, if_false] at hres
        simpa [hc] using hres
      exact absurd hres' (by decide)

/-- C5 witness: the gate theorem applied to the concrete request
(`"hello"`, model `"llama"`) from a free-tier, non-admin user. -/
theorem c5_premium_gate_witness :
    pyStrip "hello" ≠ "" ∧
    premium_models.contains (resolveModelName "hello" "llama" "gpt4all") = true ∧
    send_message "hello" "llama" false
      = ⟨SendOutcome.upgradeRequired, false, none, false⟩ :=
  ⟨by decide, by decide,
    c5_premium_gate_refuses_before_adapter "hello" "llama" (by decide) (by decide)⟩

/-- C10 counterexample: a free-tier, non-admin send request naming
`"codellama"` is indeed not refused by the premium gate, but it does NOT
proceed to generation: it dies with the `TypeError` from the
`get_context_messages(limit=None, max_tokens=1500)` call (HTTP 500), and
no adapter is ever invoked. -/
theorem c10_counterexample :
    (send_message "hi" "codellama" false).outcome ≠ SendOutcome.upgradeRequired ∧
    (send_message "hi" "codellama" false).outcome
      = SendOutcome.internalError PyErr.typeErrorUnexpectedKwarg ∧
    (send_message "hi" "codellama" false).adapterInvoked = false := by
  refine ⟨by decide, by decide, by decide⟩

/-- C10 amended: premium gating keys on the requested model name, not the
resolved adapter.  For a free-tier, non-admin user and a non-blank
message: naming the alias `"deepseek"` or `"llama"` is refused with the
upgrade-required signal, while naming the primary `"codellama"` or
`"llama3"` — which the registry routes to the very same adapter
instances — passes the gate (the request is not refused; it then fails
with an internal `TypeError` before any generation, a separate defect);
and a request with model `"auto"` is never refused by the gate,
regardless of the user's tier or of what it resolves to. -/
theorem c10_gate_keys_on_requested_name (m : String) (hmsg : pyStrip m ≠ "") :
    (send_message m "deepseek" false).outcome = SendOutcome.upgradeRequired ∧
    (send_message m "llama" false).outcome = SendOutcome.upgradeRequired ∧
    (send_message m "codellama" false).outcome ≠ SendOutcome.upgradeRequired ∧
    (send_message m "codellama" false).adapterInvoked = false ∧
    (send_message m "llama3" false).outcome ≠ SendOutcome.upgradeRequired ∧
    (send_message m "llama3" false).adapterInvoked = false ∧
    (∀ g : Bool, (send_message m "auto" g).outcome ≠ SendOutcome.upgradeRequired) ∧
    modelsLookup "deepseek" = modelsLookup "codellama" ∧
    modelsLookup "llama" = modelsLookup "llama3" := by
  have hms : (pyStrip m == "") = false := by simp [hmsg]
  refine ⟨?_, ?_, ?_, ?_, ?_, ?_, ?_, by decide, by decide⟩
  · simp [send_message, hms]; decide
  · simp [send_message, hms]; decide
  · simp [send_message, hms]; decide
  · simp [send_message, hms]; decide
  · simp [send_message, hms]; decide
  · simp [send_message, hms]; decide
  · intro g
    cases g <;> · simp [send_message, hms]; decide

/-- C10 witness: the amended theorem applied to the message `"hi"`. -/
theorem c10_gate_witness :
    pyStrip "hi" ≠ "" ∧
    (send_message "hi" "deepseek" false).outcome = SendOutcome.upgradeRequired ∧
    (send_message "hi" "llama3" false).outcome ≠ SendOutcome.upgradeRequired :=
  ⟨by decide,
   (c10_gate_keys_on_requested_name "hi" (by decide)).1,
   (c10_gate_keys_on_requested_name "hi" (by decide)).2.2.2.2.1⟩

/-- The context built by `get_model_response` keeps every turn of the
history: for an n-turn history of ordinary user messages, all n turns
appear as context lines, for every n — there is no turn-count or length
truncation in the prompt builder. -/
theorem contextLines_replicate (n : Nat) :
    (contextLines (List.replicate n ⟨"user", "hello world"⟩)).length = n := by
  induction n with
  | zero => rfl
  | succ k ih =>
      rw [List.replicate_succ]
      have hstep :
          contextLines (HMsg.mk "user" "hello world"
              :: List.replicate k ⟨"user", "hello world"⟩)
            = "User: hello world"
              :: contextLines (List.replicate k ⟨"user", "hello world"⟩) := rfl
      rw [hstep, List.length_cons, ih]

/-- The built context of an n-turn `"hello world"` history is exactly the
n corresponding `"User: ..."` lines. -/
theorem contextLines_replicate_eq (n : Nat) :
    contextLines (List.replicate n ⟨"user", "hello world"⟩)
      = List.replicate n "User: hello world" := by
  induction n with
  | zero => rfl
  | succ k ih =>
      rw [List.replicate_succ, List.replicate_succ]
      calc contextLines (HMsg.mk "user" "hello world"
              :: List.replicate k ⟨"user", "hello world"⟩)
          = "User: hello world"
              :: contextLines (List.replicate k ⟨"user", "hello world"⟩) := rfl
        _ = "User: hello world" :: List.replicate k "User: hello world" := by rw [ih]

/-- Length of the accumulator loop of `String.intercalate`. -/
theorem intercalate_go_length (sep : String) (l : List String) :
    ∀ acc : String, (String.intercalate.go acc sep l).length
      = acc.length + (l.map (fun s => sep.length + s.length)).sum := by
  induction l with
  | nil => intro acc; simp [String.intercalate.go]
  | cons a as ih =>
      intro acc
      rw [String.intercalate.go, ih]
      simp [String.length_append]
      ring

/-- Length of `String.intercalate` over a replicated line. -/
theorem intercalate_replicate_length (sep a : String) (k : Nat) :
    (String.intercalate sep (List.replicate (k + 1) a)).length
      = a.length + k * (sep.length + a.length) := by
  rw [List.replicate_succ, String.intercalate, intercalate_go_length]
  simp [List.map_replicate, List.sum_replicate, smul_eq_mul]

/-- C6 (code bug): the context budget does not exist in the code.
(1) The budgeted retrieval call the routes make —
`get_context_messages(limit=None, max_tokens=1500)` — passes a keyword
the method does not accept, so it raises `TypeError` and every send
request that reaches it dies with HTTP 500 (contradicting the route's own
comment "with token limit to avoid exceeding context window").
(2) Even below that call, `get_model_response` concatenates ALL history
turns: the prompt contains one line per history turn for every history
length n (no turn budget), and a 100-turn history of `"hello world"`
turns already builds a prompt of 1819 characters, beyond the 1500 figure
the route names. -/
theorem c6_no_context_budget :
    contextCallAccepted = false ∧
    (send_message "hello" "mistral" false).outcome
      = SendOutcome.internalError PyErr.typeErrorUnexpectedKwarg ∧
    (∀ n : Nat,
      (contextLines (List.replicate n ⟨"user", "hello world"⟩)).length = n) ∧
    (buildFullPrompt (List.replicate 100 ⟨"user", "hello world"⟩) "hi").length
      = 1819 ∧
    1500 < (buildFullPrompt (List.replicate 100 ⟨"user", "hello world"⟩) "hi").length := by
  have hlen : (buildFullPrompt (List.replicate 100 ⟨"user", "hello world"⟩) "hi").length
      = 1819 := by
    unfold buildFullPrompt
    rw [contextLines_replicate_eq]
    rw [if_neg (by decide)]
    rw [String.length_append, String.length_append, String.length_append]
    rw [show (100 : Nat) = 99 + 1 from rfl, intercalate_replicate_length]
    decide
  refine ⟨by decide, by decide, ?_, hlen, by rw [hlen]; decide⟩
  intro n
  rw [contextLines_replicate_eq, List.length_replicate]

/-- C8 (code bug): the classifier and router do resolve
`"Write a Python function to reverse a string"` with `model='auto'` to
the coding-specialist `codellama`, but the request never produces or
persists an assistant message: `send_message` dies with the
`get_context_messages` `TypeError` (HTTP 500) before calling
`get_model_response`, so nothing is persisted with role `assistant` —
and the route would in any case store the requested name `'auto'` in the
message's `model` column (routes.py line 157 uses `model_name`, which the
auto-resolution inside `get_model_response` never updates). -/
theorem c8_scenario_a_crashes :
    select_model_for_content "Write a Python function to reverse a string"
      none "gpt4all" = "codellama" ∧
    resolveModelName "Write a Python function to reverse a string"
      "auto" "gpt4all" = "codellama" ∧
    (send_message "Write a Python function to reverse a string" "auto" false).outcome
      = SendOutcome.internalError PyErr.typeErrorUnexpectedKwarg ∧
    (send_message "Write a Python function to reverse a string" "auto" false).persistedAssistant
      = none ∧
    (send_message "Write a Python function to reverse a string" "auto" false).persistedUserMsg
      = true := by
  refine ⟨by decide, by decide, by decide, by decide, by decide⟩
